import Mathlib

/-
Verification of the self-healing server monitor (src/main.py).

The program works on Python floats; the values that actually flow through
the metric pipeline are finite numbers, float inf (used as the sentinel
response time on a failed liveness probe) and, potentially, nan (produced
by arithmetic such as inf - inf).  We embed Python floats as an inductive
type FVal: exact rationals for the finite values plus the three special
points, with the IEEE rules for the operations the program uses
(addition, negation, absolute value, division by a positive integer,
strict comparison).  Rounding is irrelevant for every claim checked here,
so finite arithmetic is exact rational arithmetic.
-/

/-- Embedding of the Python float values used by the monitor: finite
rationals, the two infinities and nan. -/
inductive FVal where
  | fin (q : ℚ)
  | pinf
  | ninf
  | nan
deriving DecidableEq

namespace FVal

/-- IEEE addition on the embedded floats (finite arithmetic exact). -/
def add : FVal → FVal → FVal
  | nan, _ => nan
  | _, nan => nan
  | fin a, fin b => fin (a + b)
  | fin _, pinf => pinf
  | fin _, ninf => ninf
  | pinf, fin _ => pinf
  | pinf, pinf => pinf
  | pinf, ninf => nan
  | ninf, fin _ => ninf
  | ninf, pinf => nan
  | ninf, ninf => ninf

/-- IEEE negation. -/
def neg : FVal → FVal
  | fin a => fin (-a)
  | pinf => ninf
  | ninf => pinf
  | nan => nan

/-- IEEE subtraction, as addition of the negation. -/
def sub (a b : FVal) : FVal := add a (neg b)

/-- IEEE absolute value (Python abs). -/
def fabs : FVal → FVal
  | fin a => fin |a|
  | pinf => pinf
  | ninf => pinf
  | nan => nan

/-- Division by a list length.  The program only divides by a length that
is at least 5 (the insufficient-data guard runs first), so the n = 0 case
is never reached. -/
def divNat : FVal → ℕ → FVal
  | fin a, n => fin (a / (n : ℚ))
  | pinf, _ => pinf
  | ninf, _ => ninf
  | nan, _ => nan

/-- IEEE strict greater-than as Python evaluates it: every comparison
involving nan is false. -/
def gt : FVal → FVal → Bool
  | nan, _ => false
  | _, nan => false
  | fin a, fin b => decide (b < a)
  | fin _, pinf => false
  | fin _, ninf => true
  | pinf, fin _ => true
  | pinf, pinf => false
  | pinf, ninf => true
  | ninf, fin _ => false
  | ninf, pinf => false
  | ninf, ninf => false

end FVal

/-- Python sum over a list of floats: left fold of addition starting
from 0, as the builtin sum evaluates it. -/
def fsum (l : List FVal) : FVal := l.foldl FVal.add (FVal.fin 0)

/-- detect_anomalies from src/main.py lines 100-109: with fewer than 5
history points return False; otherwise compare the absolute deviation of
the candidate from the arithmetic mean of the history with the
threshold. -/
def detect_anomalies (current_value : FVal) (historical_data : List FVal)
    (threshold : FVal) : Bool :=
  if historical_data.length < 5 then false
  else
    let avg := FVal.divNat (fsum historical_data) historical_data.length
    let deviation := FVal.fabs (FVal.sub current_value avg)
    FVal.gt deviation threshold

theorem FVal.sub_fin_fin (a b : ℚ) :
    FVal.sub (.fin a) (.fin b) = .fin (a - b) := by
  simp [FVal.sub, FVal.neg, FVal.add, sub_eq_add_neg]

theorem foldl_add_map_fin (h : List ℚ) : ∀ (q : ℚ),
    (h.map FVal.fin).foldl FVal.add (FVal.fin q) = FVal.fin (q + h.sum) := by
  induction h with
  | nil => intro q; simp
  | cons x xs ih =>
      intro q
      simp only [List.map_cons, List.foldl_cons, FVal.add, List.sum_cons]
      rw [ih (q + x)]
      congr 1
      ring

theorem fsum_map_fin (h : List ℚ) : fsum (h.map FVal.fin) = .fin h.sum := by
  simpa using foldl_add_map_fin h 0

/-- Claim C1: the deviation-policy detector returns not-anomalous on every
history with fewer than 5 values, and on a history with at least 5 values
it returns anomalous exactly when the absolute deviation of the candidate
from the arithmetic mean of the history exceeds the threshold. -/
theorem detect_anomalies_deviation_policy (c t : ℚ) (h : List ℚ) :
    (h.length < 5 →
      detect_anomalies (.fin c) (h.map FVal.fin) (.fin t) = false) ∧
    (5 ≤ h.length →
      (detect_anomalies (.fin c) (h.map FVal.fin) (.fin t) = true ↔
        |c - h.sum / (h.length : ℚ)| > t)) := by
  constructor
  · intro hlt
    simp [detect_anomalies, hlt]
  · intro hge
    simp only [detect_anomalies, List.length_map,
      if_neg (by omega : ¬ h.length < 5)]
    rw [fsum_map_fin]
    simp only [FVal.divNat, FVal.sub_fin_fin, FVal.fabs, FVal.gt]
    exact decide_eq_true_iff

/-- Witness for C1 at the inputs named by the claim: history
[10,10,10,10,10] with threshold 2 flags candidate 13 and not candidate 11,
and a 2-point history flags nothing. -/
theorem detect_anomalies_deviation_policy_witness :
    detect_anomalies (.fin 13) (([10, 10, 10, 10, 10] : List ℚ).map FVal.fin)
      (.fin 2) = true ∧
    detect_anomalies (.fin 11) (([10, 10, 10, 10, 10] : List ℚ).map FVal.fin)
      (.fin 2) = false ∧
    detect_anomalies (.fin 13) (([10, 10] : List ℚ).map FVal.fin)
      (.fin 2) = false := by
  refine ⟨?_, ?_, ?_⟩
  · exact ((detect_anomalies_deviation_policy 13 2 [10, 10, 10, 10, 10]).2
      (by simp)).mpr (by norm_num)
  · have hiff := (detect_anomalies_deviation_policy 11 2
      [10, 10, 10, 10, 10]).2 (by simp)
    cases hb : detect_anomalies (.fin 11)
        (([10, 10, 10, 10, 10] : List ℚ).map FVal.fin) (.fin 2) with
    | false => rfl
    | true => exact absurd (hiff.mp hb) (by norm_num)
  · exact (detect_anomalies_deviation_policy 13 2 [10, 10]).1 (by simp)

/-- One append to a rolling metric history, src/main.py lines 221-225 in
main: append the new value, then pop the single oldest entry (index 0)
when the length exceeds 100. -/
def history_append {α : Type} (h : List α) (v : α) : List α :=
  let h2 := h ++ [v]
  if h2.length > 100 then h2.drop 1 else h2

theorem history_append_of_lt {α : Type} (h : List α) (v : α)
    (hle : h.length + 1 ≤ 100) : history_append h v = h ++ [v] := by
  simp only [history_append, List.length_append, List.length_singleton]
  rw [if_neg (by omega)]

theorem history_append_at_cap {α : Type} (h : List α) (v : α)
    (hcap : h.length = 100) : history_append h v = (h ++ [v]).drop 1 := by
  simp only [history_append, List.length_append, List.length_singleton]
  rw [if_pos (by omega)]

theorem foldl_history_append {α : Type} (vs : List α) :
    ∀ (h : List α), h.length ≤ 100 →
      List.foldl history_append h vs =
        (h ++ vs).drop (h.length + vs.length - 100) := by
  induction vs with
  | nil =>
      intro h hle
      simp [Nat.sub_eq_zero_of_le hle]
  | cons v vs ih =>
      intro h hle
      rw [List.foldl_cons]
      by_cases hcap : h.length + 1 ≤ 100
      · rw [history_append_of_lt h v hcap,
          ih (h ++ [v]) (by simp only [List.length_append,
            List.length_singleton]; omega)]
        rw [List.append_assoc, List.singleton_append]
        simp only [List.length_append, List.length_singleton, List.length_cons,
          List.length_nil]
        congr 1
        omega
      · have h100 : h.length = 100 := by omega
        rw [history_append_at_cap h v h100,
          ih _ (by simp only [List.length_drop, List.length_append,
            List.length_singleton]; omega)]
        rw [(List.drop_append_of_le_length (by
          simp only [List.length_append, List.length_singleton]; omega)).symm,
          List.drop_drop, List.append_assoc, List.singleton_append]
        simp only [List.length_drop, List.length_append,
          List.length_singleton, List.length_cons, List.length_nil]
        congr 1
        omega

/-- Claim C2: for every sequence of appended values the rolling history
holds at most 100 entries, the retained entries are exactly the most
recent ones in arrival order (the suffix of the append sequence), and at
capacity each append evicts exactly the single oldest entry (FIFO). -/
theorem history_capacity_invariant {α : Type} (vs : List α) :
    ((List.foldl history_append [] vs).length ≤ 100 ∧
     List.foldl history_append [] vs = vs.drop (vs.length - 100)) ∧
    (∀ (h : List α) (v : α), h.length = 100 →
      history_append h v = h.tail ++ [v]) := by
  have hfold := foldl_history_append vs [] (by simp)
  simp only [List.nil_append, List.length_nil, Nat.zero_add] at hfold
  refine ⟨⟨?_, hfold⟩, ?_⟩
  · rw [hfold, List.length_drop]
    omega
  · intro h v hcap
    rw [history_append_at_cap h v hcap,
      List.drop_append_of_le_length (by omega), List.drop_one]

/-- Witness for C2: 101 appends retain exactly the last 100 values, and
one append at capacity drops exactly the head. -/
theorem history_capacity_invariant_witness :
    List.foldl history_append [] (List.range 101) =
      (List.range 101).drop 1 ∧
    history_append (List.range 100) 7 = (List.range 100).tail ++ [7] := by
  constructor
  · have hmain := (history_capacity_invariant (List.range 101)).1.2
    simpa using hmain
  · exact (history_capacity_invariant ([] : List ℕ)).2 (List.range 100) 7
      (by simp)

/-- Outcome of the liveness probe HTTP GET in check_server_response:
either a reply with a status code and an elapsed time, or a transport
error / timeout (requests.RequestException). -/
inductive ProbeOutcome where
  | ok (status : ℕ) (elapsed : ℚ)
  | err
deriving DecidableEq

/-- check_server_response from src/main.py lines 74-87: return the
elapsed time on a 200 reply, and float inf on any other status or on a
request exception. -/
def check_server_response : ProbeOutcome → FVal
  | .ok status elapsed => if status == 200 then .fin elapsed else .pinf
  | .err => .pinf

/-- True exactly on the probe outcomes the claim calls failures: timeout,
transport error, or a non-200 status. -/
def probe_failed : ProbeOutcome → Bool
  | .ok status _ => !(status == 200)
  | .err => true

/-- The threshold-bearing part of the JSON configuration file: the four
keys read by check_and_adapt_thresholds and written back by
adjust_thresholds. -/
structure Config where
  cpu_threshold : FVal
  memory_threshold : FVal
  disk_threshold : FVal
  response_time_threshold : FVal
deriving DecidableEq

/-- The results dict built by perform_health_checks. -/
structure HealthResults where
  cpu_usage : FVal
  memory_usage : FVal
  disk_usage : FVal
  response_time : FVal
  needs_restart : Bool
deriving DecidableEq

/-- The historical_data dict of main: one rolling list per metric. -/
structure HistoricalData where
  cpu_usage : List FVal
  memory_usage : List FVal
  disk_usage : List FVal
  response_time : List FVal
deriving DecidableEq

/-- perform_health_checks from src/main.py lines 56-72: sample the four
metrics (the host readings and the probe outcome are inputs here), start
with needs_restart = False, then set it when the sampled cpu usage
strictly exceeds the configured cpu threshold. -/
def perform_health_checks (cpu_usage memory_usage disk_usage : FVal)
    (probe : ProbeOutcome) (config : Config) : HealthResults :=
  let results : HealthResults :=
    { cpu_usage := cpu_usage, memory_usage := memory_usage,
      disk_usage := disk_usage,
      response_time := check_server_response probe,
      needs_restart := false }
  if FVal.gt results.cpu_usage config.cpu_threshold then
    { results with needs_restart := true }
  else results

/-- The four anomaly verdicts computed in check_and_adapt_thresholds,
src/main.py lines 159-162, each against the thresholds passed in. -/
structure Verdicts where
  cpu_anomaly : Bool
  memory_anomaly : Bool
  disk_anomaly : Bool
  response_anomaly : Bool
deriving DecidableEq

/-- The four detect_anomalies calls of check_and_adapt_thresholds, all
reading the same thresholds value loaded once at the top. -/
def anomaly_verdicts (results : HealthResults)
    (historical_data : HistoricalData) (thresholds : Config) : Verdicts :=
  { cpu_anomaly := detect_anomalies results.cpu_usage
      historical_data.cpu_usage thresholds.cpu_threshold,
    memory_anomaly := detect_anomalies results.memory_usage
      historical_data.memory_usage thresholds.memory_threshold,
    disk_anomaly := detect_anomalies results.disk_usage
      historical_data.disk_usage thresholds.disk_threshold,
    response_anomaly := detect_anomalies results.response_time
      historical_data.response_time thresholds.response_time_threshold }

/-- The disjunction guarding threshold adjustment, src/main.py line 164. -/
def any_anomaly (results : HealthResults) (historical_data : HistoricalData)
    (thresholds : Config) : Bool :=
  let v := anomaly_verdicts results historical_data thresholds
  v.cpu_anomaly || v.memory_anomaly || v.disk_anomaly || v.response_anomaly

/-- The new_thresholds dict of src/main.py lines 165-170: +5 on the three
percentage thresholds, +1 on the response-time threshold. -/
def new_thresholds_of (thresholds : Config) : Config :=
  { cpu_threshold := FVal.add thresholds.cpu_threshold (.fin 5),
    memory_threshold := FVal.add thresholds.memory_threshold (.fin 5),
    disk_threshold := FVal.add thresholds.disk_threshold (.fin 5),
    response_time_threshold :=
      FVal.add thresholds.response_time_threshold (.fin 1) }

/-- Outcome of the read-modify-write of the config file performed by
adjust_thresholds. -/
inductive WriteOutcome where
  | success
  | permissionDenied
  | decodeFailed
  | otherFailure
deriving DecidableEq

/-- adjust_thresholds from src/main.py lines 174-188: on success the
config file now carries the new thresholds; every failure is caught,
leaves the file at its previous contents, and is logged (second
component).  Nothing is returned to the caller either way. -/
def adjust_thresholds (w : WriteOutcome) (new_thresholds : Config)
    (file : Config) : Config × Bool :=
  match w with
  | .success => (new_thresholds, false)
  | .permissionDenied => (file, true)
  | .decodeFailed => (file, true)
  | .otherFailure => (file, true)

/-- check_and_adapt_thresholds from src/main.py lines 155-172: load the
thresholds from the config file once, compute the four verdicts against
them, and when any metric is anomalous write the incremented thresholds
back through adjust_thresholds.  The first component is the config file
contents afterwards, the second whether a write failure was logged. -/
def check_and_adapt_thresholds (w : WriteOutcome) (results : HealthResults)
    (historical_data : HistoricalData) (file : Config) : Config × Bool :=
  let thresholds := file
  if any_anomaly results historical_data thresholds then
    adjust_thresholds w (new_thresholds_of thresholds) file
  else (file, false)

/-- Observable actions of the remediation path. -/
inductive Event where
  | restartCmd (service : String)
  | logRestartSuccess (service : String)
  | alert (message : String)
deriving DecidableEq

/-- restart_service from src/main.py lines 128-134: run the systemctl
restart command and log success unconditionally; the exit status returned
by os.system is never inspected, and os.system does not raise on a
non-zero exit, so the except branch is unreachable for a failing
restart. -/
def restart_service (service_name : String) (_exitCode : Int) : List Event :=
  [Event.restartCmd service_name, Event.logRestartSuccess service_name]

/-- The remediation step of main, src/main.py lines 229-231: when
needs_restart is set, restart the service and then send the alert
unconditionally. -/
def remediation_step (results : HealthResults) (service_name : String)
    (exitCode : Int) : List Event :=
  if results.needs_restart then
    restart_service service_name exitCode ++
      [Event.alert
        (service_name ++ " has been restarted due to health check failure.")]
  else []

/-- The per-cycle inputs of the main loop that come from the outside
world: the three host readings, the probe outcome, the configured service
name, the exit status of the restart command, and the fate of the config
write. -/
structure CycleInput where
  cpu_usage : FVal
  memory_usage : FVal
  disk_usage : FVal
  probe : ProbeOutcome
  service_name : String
  restartExit : Int
  write : WriteOutcome
deriving DecidableEq

/-- Everything one iteration of the main loop produces. -/
structure CycleOutput where
  results : HealthResults
  historical_data : HistoricalData
  file : Config
  writeErrorLogged : Bool
  events : List Event
deriving DecidableEq

/-- One iteration of the while loop of main, src/main.py lines 215-235:
perform the health checks, append every result to its rolling history
(before anomaly detection, so the histories passed to
check_and_adapt_thresholds already contain the current sample), adapt the
thresholds, then run the remediation step. -/
def main_cycle (inp : CycleInput) (historical_data : HistoricalData)
    (file : Config) : CycleOutput :=
  let results := perform_health_checks inp.cpu_usage inp.memory_usage
    inp.disk_usage inp.probe file
  let historical_data2 : HistoricalData :=
    { cpu_usage := history_append historical_data.cpu_usage results.cpu_usage,
      memory_usage :=
        history_append historical_data.memory_usage results.memory_usage,
      disk_usage :=
        history_append historical_data.disk_usage results.disk_usage,
      response_time :=
        history_append historical_data.response_time results.response_time }
  let adapt := check_and_adapt_thresholds inp.write results
    historical_data2 file
  let events := remediation_step results inp.service_name inp.restartExit
  { results := results, historical_data := historical_data2,
    file := adapt.1, writeErrorLogged := adapt.2, events := events }

/-- Claim C3: threshold adaptation happens at most once per evaluation
cycle (an anomalous cycle applies exactly one increment) and only when at
least one tracked metric is anomalous in that cycle (otherwise the
thresholds are untouched); with successful writes the additive rule is
cumulative: from cpu threshold 80, one anomalous cycle gives 85 and a
second consecutive anomalous cycle gives 90. -/
theorem threshold_adaptation_additive_cumulative
    (r1 r2 : HealthResults) (h1 h2 : HistoricalData) (cfg : Config) :
    (any_anomaly r1 h1 cfg = false →
      (check_and_adapt_thresholds .success r1 h1 cfg).1 = cfg) ∧
    (any_anomaly r1 h1 cfg = true →
      (check_and_adapt_thresholds .success r1 h1 cfg).1 =
        new_thresholds_of cfg) ∧
    (cfg.cpu_threshold = .fin 80 → any_anomaly r1 h1 cfg = true →
      any_anomaly r2 h2 (check_and_adapt_thresholds .success r1 h1 cfg).1
        = true →
      (check_and_adapt_thresholds .success r2 h2
          (check_and_adapt_thresholds .success r1 h1 cfg).1).1.cpu_threshold
        = .fin 90) := by
  refine ⟨?_, ?_, ?_⟩
  · intro hno
    simp [check_and_adapt_thresholds, hno]
  · intro hyes
    simp [check_and_adapt_thresholds, hyes, adjust_thresholds]
  · intro hcpu h1a h2a
    have e1 : (check_and_adapt_thresholds .success r1 h1 cfg).1 =
        new_thresholds_of cfg := by
      simp [check_and_adapt_thresholds, h1a, adjust_thresholds]
    rw [e1] at h2a ⊢
    simp only [check_and_adapt_thresholds, h2a, if_true, adjust_thresholds]
    show FVal.add (FVal.add cfg.cpu_threshold (.fin 5)) (.fin 5) = .fin 90
    rw [hcpu]
    show FVal.fin (80 + 5 + 5) = FVal.fin 90
    norm_num

/-- Witness for C3: starting from cpu threshold 80, two consecutive
anomalous cycles with successful writes leave the cpu threshold at 90. -/
theorem threshold_adaptation_additive_cumulative_witness :
    (check_and_adapt_thresholds .success
        ⟨.fin 200, .fin 0, .fin 0, .fin 0, false⟩
        ⟨[.fin 10, .fin 10, .fin 10, .fin 10, .fin 10], [], [], []⟩
        (check_and_adapt_thresholds .success
          ⟨.fin 95, .fin 0, .fin 0, .fin 0, false⟩
          ⟨[.fin 10, .fin 10, .fin 10, .fin 10, .fin 10], [], [], []⟩
          ⟨.fin 80, .fin 80, .fin 80, .fin 80⟩).1).1.cpu_threshold
      = .fin 90 := by
  exact (threshold_adaptation_additive_cumulative
      ⟨.fin 95, .fin 0, .fin 0, .fin 0, false⟩
      ⟨.fin 200, .fin 0, .fin 0, .fin 0, false⟩
      ⟨[.fin 10, .fin 10, .fin 10, .fin 10, .fin 10], [], [], []⟩
      ⟨[.fin 10, .fin 10, .fin 10, .fin 10, .fin 10], [], [], []⟩
      ⟨.fin 80, .fin 80, .fin 80, .fin 80⟩).2.2 rfl
    (by norm_num [any_anomaly, anomaly_verdicts, detect_anomalies, fsum,
      List.foldl, FVal.add, FVal.divNat, FVal.sub, FVal.neg, FVal.fabs,
      FVal.gt])
    (by norm_num [any_anomaly, anomaly_verdicts, detect_anomalies, fsum,
      List.foldl, check_and_adapt_thresholds, adjust_thresholds,
      new_thresholds_of, FVal.add, FVal.divNat, FVal.sub, FVal.neg,
      FVal.fabs, FVal.gt])

/-- Claim C4: within one cycle every anomaly verdict is computed against
the thresholds loaded before the adaptation; the config afterwards is a
function of those pre-adaptation verdicts only.  The concrete part
exhibits an input on which the pre- and post-adaptation thresholds give
different cpu verdicts, and shows the cycle adapts, which it only does
under the pre-adaptation verdict. -/
theorem scoring_uses_preadaptation_thresholds :
    (∀ (w : WriteOutcome) (r : HealthResults) (hd : HistoricalData)
        (cfg : Config),
      (check_and_adapt_thresholds w r hd cfg).1 =
        if any_anomaly r hd cfg then
          (adjust_thresholds w (new_thresholds_of cfg) cfg).1
        else cfg) ∧
    ((anomaly_verdicts ⟨.fin 95, .fin 0, .fin 0, .fin 0, false⟩
        ⟨[.fin 10, .fin 10, .fin 10, .fin 10, .fin 10], [], [], []⟩
        ⟨.fin 80, .fin 80, .fin 80, .fin 80⟩).cpu_anomaly = true ∧
     (anomaly_verdicts ⟨.fin 95, .fin 0, .fin 0, .fin 0, false⟩
        ⟨[.fin 10, .fin 10, .fin 10, .fin 10, .fin 10], [], [], []⟩
        (new_thresholds_of ⟨.fin 80, .fin 80, .fin 80, .fin 80⟩)).cpu_anomaly
        = false ∧
     (check_and_adapt_thresholds .success
        ⟨.fin 95, .fin 0, .fin 0, .fin 0, false⟩
        ⟨[.fin 10, .fin 10, .fin 10, .fin 10, .fin 10], [], [], []⟩
        ⟨.fin 80, .fin 80, .fin 80, .fin 80⟩).1 =
       new_thresholds_of ⟨.fin 80, .fin 80, .fin 80, .fin 80⟩) := by
  refine ⟨?_, ?_, ?_, ?_⟩
  · intro w r hd cfg
    cases hA : any_anomaly r hd cfg <;>
      simp [check_and_adapt_thresholds, hA]
  · norm_num [anomaly_verdicts, detect_anomalies, fsum, List.foldl,
      FVal.add, FVal.divNat, FVal.sub, FVal.neg, FVal.fabs, FVal.gt]
  · norm_num [anomaly_verdicts, detect_anomalies, fsum, List.foldl,
      new_thresholds_of, FVal.add, FVal.divNat, FVal.sub, FVal.neg,
      FVal.fabs, FVal.gt]
  · norm_num [any_anomaly, anomaly_verdicts, detect_anomalies, fsum,
      List.foldl, check_and_adapt_thresholds, adjust_thresholds,
      FVal.add, FVal.divNat, FVal.sub, FVal.neg, FVal.fabs, FVal.gt]

/-- Claim C6: whenever any of the four metrics is anomalous in a cycle,
the adaptation increments the thresholds of all four metrics at once,
+5 on cpu, memory and disk and +1 on response time, whether or not the
individual metric was anomalous. -/
theorem adaptation_bumps_all_thresholds (r : HealthResults)
    (hd : HistoricalData) (cfg : Config)
    (hA : any_anomaly r hd cfg = true) :
    (check_and_adapt_thresholds .success r hd cfg).1 =
      new_thresholds_of cfg ∧
    (check_and_adapt_thresholds .success r hd cfg).1.cpu_threshold =
      FVal.add cfg.cpu_threshold (.fin 5) ∧
    (check_and_adapt_thresholds .success r hd cfg).1.memory_threshold =
      FVal.add cfg.memory_threshold (.fin 5) ∧
    (check_and_adapt_thresholds .success r hd cfg).1.disk_threshold =
      FVal.add cfg.disk_threshold (.fin 5) ∧
    (check_and_adapt_thresholds .success r hd cfg).1.response_time_threshold
      = FVal.add cfg.response_time_threshold (.fin 1) := by
  have e1 : (check_and_adapt_thresholds .success r hd cfg).1 =
      new_thresholds_of cfg := by
    simp [check_and_adapt_thresholds, hA, adjust_thresholds]
  exact ⟨e1, by rw [e1]; rfl, by rw [e1]; rfl, by rw [e1]; rfl,
    by rw [e1]; rfl⟩

/-- Witness for C6: a cycle in which only the response-time metric is
anomalous still bumps all four thresholds. -/
theorem adaptation_bumps_all_thresholds_witness :
    (check_and_adapt_thresholds .success
        ⟨.fin 0, .fin 0, .fin 0, .fin 100, false⟩
        ⟨[], [], [], [.fin 10, .fin 10, .fin 10, .fin 10, .fin 10]⟩
        ⟨.fin 80, .fin 80, .fin 80, .fin 50⟩).1 =
      new_thresholds_of ⟨.fin 80, .fin 80, .fin 80, .fin 50⟩ := by
  exact (adaptation_bumps_all_thresholds
      ⟨.fin 0, .fin 0, .fin 0, .fin 100, false⟩
      ⟨[], [], [], [.fin 10, .fin 10, .fin 10, .fin 10, .fin 10]⟩
      ⟨.fin 80, .fin 80, .fin 80, .fin 50⟩
      (by norm_num [any_anomaly, anomaly_verdicts, detect_anomalies, fsum,
        List.foldl, FVal.add, FVal.divNat, FVal.sub, FVal.neg, FVal.fabs,
        FVal.gt])).1

/-- Claim C5: needs_restart is set exactly when the sampled cpu usage
strictly exceeds the configured cpu threshold; the flag does not depend on
the probe outcome or on any history (hence not on any anomaly verdict),
the anomaly/adaptation path in turn ignores the flag, and with cpu usage
95 against threshold 90 a full cycle sets it for every history, probe
outcome, write outcome and restart exit status. -/
theorem needs_restart_independent_of_anomaly_path :
    (∀ (cpu mem disk : FVal) (probe : ProbeOutcome) (cfg : Config),
      (perform_health_checks cpu mem disk probe cfg).needs_restart =
        FVal.gt cpu cfg.cpu_threshold) ∧
    (∀ (inp : CycleInput) (hd : HistoricalData) (cfg : Config),
      (main_cycle inp hd cfg).results.needs_restart =
        FVal.gt inp.cpu_usage cfg.cpu_threshold) ∧
    (∀ (w : WriteOutcome) (r : HealthResults) (hd : HistoricalData)
        (cfg : Config) (b : Bool),
      check_and_adapt_thresholds w
          { r with needs_restart := b } hd cfg =
        check_and_adapt_thresholds w r hd cfg) ∧
    (∀ (mem disk : FVal) (probe : ProbeOutcome) (svc : String) (e : Int)
        (w : WriteOutcome) (hd : HistoricalData) (mt dt rt : FVal),
      (main_cycle ⟨.fin 95, mem, disk, probe, svc, e, w⟩ hd
          ⟨.fin 90, mt, dt, rt⟩).results.needs_restart = true) := by
  have hbase : ∀ (cpu mem disk : FVal) (probe : ProbeOutcome) (cfg : Config),
      (perform_health_checks cpu mem disk probe cfg).needs_restart =
        FVal.gt cpu cfg.cpu_threshold := by
    intro cpu mem disk probe cfg
    cases hb : FVal.gt cpu cfg.cpu_threshold <;>
      simp [perform_health_checks, hb]
  refine ⟨hbase, ?_, ?_, ?_⟩
  · intro inp hd cfg
    simp only [main_cycle]
    exact hbase _ _ _ _ _
  · intro w r hd cfg b
    rfl
  · intro mem disk probe svc e w hd mt dt rt
    simp only [main_cycle]
    rw [hbase]
    norm_num [FVal.gt]

/-- Counterexample to C7: an anomalous cycle whose config write fails does
NOT leave the adapted cpu threshold (85) in effect; the config file, the
only threshold state the next cycle reads, still holds 80. -/
theorem adaptation_write_failure_counterexample :
    any_anomaly ⟨.fin 95, .fin 0, .fin 0, .fin 0, false⟩
      ⟨[.fin 10, .fin 10, .fin 10, .fin 10, .fin 10], [], [], []⟩
      ⟨.fin 80, .fin 80, .fin 80, .fin 80⟩ = true ∧
    (new_thresholds_of
      ⟨.fin 80, .fin 80, .fin 80, .fin 80⟩).cpu_threshold = .fin 85 ∧
    (check_and_adapt_thresholds .otherFailure
      ⟨.fin 95, .fin 0, .fin 0, .fin 0, false⟩
      ⟨[.fin 10, .fin 10, .fin 10, .fin 10, .fin 10], [], [], []⟩
      ⟨.fin 80, .fin 80, .fin 80, .fin 80⟩).2 = true ∧
    (check_and_adapt_thresholds .otherFailure
      ⟨.fin 95, .fin 0, .fin 0, .fin 0, false⟩
      ⟨[.fin 10, .fin 10, .fin 10, .fin 10, .fin 10], [], [], []⟩
      ⟨.fin 80, .fin 80, .fin 80, .fin 80⟩).1.cpu_threshold = .fin 80 ∧
    (check_and_adapt_thresholds .otherFailure
      ⟨.fin 95, .fin 0, .fin 0, .fin 0, false⟩
      ⟨[.fin 10, .fin 10, .fin 10, .fin 10, .fin 10], [], [], []⟩
      ⟨.fin 80, .fin 80, .fin 80, .fin 80⟩).1.cpu_threshold ≠ .fin 85 := by
  refine ⟨?_, ?_, ?_, ?_, ?_⟩ <;>
    norm_num [any_anomaly, anomaly_verdicts, detect_anomalies, fsum,
      List.foldl, check_and_adapt_thresholds, adjust_thresholds,
      new_thresholds_of, FVal.add, FVal.divNat, FVal.sub, FVal.neg,
      FVal.fabs, FVal.gt]

/-- Amended C7: a failed config write during adaptation is logged and not
fatal, but the adapted thresholds are NOT retained: the config file (the
only threshold state, re-read by the next cycle) keeps its pre-adaptation
values, so the adaptation of that cycle is lost. -/
theorem adaptation_write_failure_amended (w : WriteOutcome)
    (r : HealthResults) (hd : HistoricalData) (file : Config)
    (hw : w ≠ .success) (hA : any_anomaly r hd file = true) :
    (check_and_adapt_thresholds w r hd file).1 = file ∧
    (check_and_adapt_thresholds w r hd file).2 = true := by
  cases w with
  | success => exact absurd rfl hw
  | permissionDenied =>
      simp [check_and_adapt_thresholds, hA, adjust_thresholds]
  | decodeFailed =>
      simp [check_and_adapt_thresholds, hA, adjust_thresholds]
  | otherFailure =>
      simp [check_and_adapt_thresholds, hA, adjust_thresholds]

/-- Witness for the amended C7 at a concrete anomalous cycle with a
permission failure. -/
theorem adaptation_write_failure_amended_witness :
    (check_and_adapt_thresholds .permissionDenied
      ⟨.fin 95, .fin 0, .fin 0, .fin 0, false⟩
      ⟨[.fin 10, .fin 10, .fin 10, .fin 10, .fin 10], [], [], []⟩
      ⟨.fin 80, .fin 80, .fin 80, .fin 80⟩).1 =
        ⟨.fin 80, .fin 80, .fin 80, .fin 80⟩ ∧
    (check_and_adapt_thresholds .permissionDenied
      ⟨.fin 95, .fin 0, .fin 0, .fin 0, false⟩
      ⟨[.fin 10, .fin 10, .fin 10, .fin 10, .fin 10], [], [], []⟩
      ⟨.fin 80, .fin 80, .fin 80, .fin 80⟩).2 = true := by
  exact adaptation_write_failure_amended .permissionDenied
    ⟨.fin 95, .fin 0, .fin 0, .fin 0, false⟩
    ⟨[.fin 10, .fin 10, .fin 10, .fin 10, .fin 10], [], [], []⟩
    ⟨.fin 80, .fin 80, .fin 80, .fin 80⟩ (by simp)
    (by norm_num [any_anomaly, anomaly_verdicts, detect_anomalies, fsum,
      List.foldl, FVal.add, FVal.divNat, FVal.sub, FVal.neg, FVal.fabs,
      FVal.gt])

/-- Counterexample to C8: a nan candidate against a 5-point history is
scored NOT anomalous, because every comparison with nan is false, while
the claim requires it to be treated as anomalous. -/
theorem detect_anomalies_nan_counterexample :
    detect_anomalies .nan
      [.fin 10, .fin 10, .fin 10, .fin 10, .fin 10] (.fin 2) = false := by
  norm_num [detect_anomalies, fsum, List.foldl, FVal.add, FVal.divNat,
    FVal.sub, FVal.neg, FVal.fabs, FVal.gt]

/-- Amended C8: detection is a total function (it never raises); against a
history of at least 5 finite points, an infinite candidate is scored
anomalous for every finite threshold, but a nan candidate is scored
not-anomalous rather than anomalous. -/
theorem detect_anomalies_nonfinite_amended (h : List ℚ) (t : ℚ)
    (hge : 5 ≤ h.length) :
    detect_anomalies .pinf (h.map FVal.fin) (.fin t) = true ∧
    detect_anomalies .ninf (h.map FVal.fin) (.fin t) = true ∧
    detect_anomalies .nan (h.map FVal.fin) (.fin t) = false := by
  refine ⟨?_, ?_, ?_⟩ <;>
  · simp only [detect_anomalies, List.length_map,
      if_neg (by omega : ¬ h.length < 5)]
    rw [fsum_map_fin]
    simp [FVal.divNat, FVal.sub, FVal.neg, FVal.add, FVal.fabs, FVal.gt]

/-- Witness for the amended C8 on the 5-point constant history. -/
theorem detect_anomalies_nonfinite_amended_witness :
    detect_anomalies .pinf (([10, 10, 10, 10, 10] : List ℚ).map FVal.fin)
      (.fin 2) = true ∧
    detect_anomalies .ninf (([10, 10, 10, 10, 10] : List ℚ).map FVal.fin)
      (.fin 2) = true ∧
    detect_anomalies .nan (([10, 10, 10, 10, 10] : List ℚ).map FVal.fin)
      (.fin 2) = false := by
  exact detect_anomalies_nonfinite_amended [10, 10, 10, 10, 10] 2 (by simp)

/-- Counterexample to C9: with needs_restart set and the restart command
succeeding (exit status 0), the alert is still sent — the remediation
trace is identical for exit 0 and exit 1, so success does not suppress
the alert and failure is never detected. -/
theorem restart_alert_on_success_counterexample :
    Event.alert
        ("nginx" ++ " has been restarted due to health check failure.") ∈
      remediation_step ⟨.fin 95, .fin 0, .fin 0, .fin 0, true⟩ "nginx" 0 ∧
    remediation_step ⟨.fin 95, .fin 0, .fin 0, .fin 0, true⟩ "nginx" 0 =
      remediation_step ⟨.fin 95, .fin 0, .fin 0, .fin 0, true⟩ "nginx" 1 := by
  constructor
  · simp [remediation_step, restart_service]
  · rfl

/-- Amended C9: whenever needs_restart triggers remediation, the restart
command is issued, a success message is logged unconditionally (the exit
status of the command is ignored, so a failed restart is neither detected
nor reported), and an alert naming the service is sent unconditionally,
on success and failure alike. -/
theorem restart_alert_unconditional_amended (r : HealthResults)
    (svc : String) (e1 e2 : Int) (hr : r.needs_restart = true) :
    remediation_step r svc e1 =
      [Event.restartCmd svc, Event.logRestartSuccess svc,
       Event.alert
        (svc ++ " has been restarted due to health check failure.")] ∧
    remediation_step r svc e1 = remediation_step r svc e2 := by
  constructor <;> simp [remediation_step, restart_service, hr]

/-- Witness for the amended C9 at a concrete triggered cycle. -/
theorem restart_alert_unconditional_amended_witness :
    remediation_step ⟨.fin 95, .fin 0, .fin 0, .fin 0, true⟩ "nginx" 0 =
      [Event.restartCmd "nginx", Event.logRestartSuccess "nginx",
       Event.alert
        ("nginx" ++ " has been restarted due to health check failure.")] := by
  exact (restart_alert_unconditional_amended
    ⟨.fin 95, .fin 0, .fin 0, .fin 0, true⟩ "nginx" 0 1 rfl).1

/-- Claim C10: when the liveness probe fails (transport error or non-200
status), the response time recorded for the cycle is +infinity while the
cpu, memory and disk readings pass through unchanged, the restart decision
is still evaluated against the cpu threshold, and the cycle still appends
every metric to its history instead of aborting. -/
theorem sampler_failure_isolation
    (cpu mem disk : FVal) (probe : ProbeOutcome) (cfg : Config)
    (svc : String) (e : Int) (w : WriteOutcome) (hd : HistoricalData)
    (hfail : probe_failed probe = true) :
    ((perform_health_checks cpu mem disk probe cfg).response_time = .pinf ∧
     (perform_health_checks cpu mem disk probe cfg).cpu_usage = cpu ∧
     (perform_health_checks cpu mem disk probe cfg).memory_usage = mem ∧
     (perform_health_checks cpu mem disk probe cfg).disk_usage = disk ∧
     (perform_health_checks cpu mem disk probe cfg).needs_restart =
       FVal.gt cpu cfg.cpu_threshold) ∧
    ((main_cycle ⟨cpu, mem, disk, probe, svc, e, w⟩ hd
        cfg).historical_data.cpu_usage = history_append hd.cpu_usage cpu ∧
     (main_cycle ⟨cpu, mem, disk, probe, svc, e, w⟩ hd
        cfg).historical_data.response_time =
       history_append hd.response_time .pinf) := by
  have hresp : check_server_response probe = .pinf := by
    cases probe with
    | ok s el =>
        have hs : (s == 200) = false := by
          simpa [probe_failed] using hfail
        simp [check_server_response, hs]
    | err => rfl
  cases hb : FVal.gt cpu cfg.cpu_threshold <;>
    simp [perform_health_checks, main_cycle, hb, hresp]

/-- Witness for C10 at a concrete failing probe. -/
theorem sampler_failure_isolation_witness :
    ((perform_health_checks (.fin 50) (.fin 40) (.fin 30) .err
        ⟨.fin 80, .fin 80, .fin 80, .fin 80⟩).response_time = .pinf ∧
     (perform_health_checks (.fin 50) (.fin 40) (.fin 30) .err
        ⟨.fin 80, .fin 80, .fin 80, .fin 80⟩).cpu_usage = .fin 50 ∧
     (perform_health_checks (.fin 50) (.fin 40) (.fin 30) .err
        ⟨.fin 80, .fin 80, .fin 80, .fin 80⟩).memory_usage = .fin 40 ∧
     (perform_health_checks (.fin 50) (.fin 40) (.fin 30) .err
        ⟨.fin 80, .fin 80, .fin 80, .fin 80⟩).disk_usage = .fin 30 ∧
     (perform_health_checks (.fin 50) (.fin 40) (.fin 30) .err
        ⟨.fin 80, .fin 80, .fin 80, .fin 80⟩).needs_restart =
       FVal.gt (.fin 50) (FVal.fin 80)) ∧
    ((main_cycle ⟨.fin 50, .fin 40, .fin 30, .err, "nginx", 0, .success⟩
        ⟨[], [], [], []⟩
        ⟨.fin 80, .fin 80, .fin 80, .fin 80⟩).historical_data.cpu_usage =
       history_append [] (.fin 50) ∧
     (main_cycle ⟨.fin 50, .fin 40, .fin 30, .err, "nginx", 0, .success⟩
        ⟨[], [], [], []⟩
        ⟨.fin 80, .fin 80, .fin 80, .fin 80⟩).historical_data.response_time =
       history_append [] .pinf) := by
  exact sampler_failure_isolation (.fin 50) (.fin 40) (.fin 30) .err
    ⟨.fin 80, .fin 80, .fin 80, .fin 80⟩ "nginx" 0 .success
    ⟨[], [], [], []⟩ rfl
